import Mathlib

/-
Verification of the SAP vendor-registration automation engine
(CadastroDeFornecedorSAP).

The development shallowly embeds the orchestration core:
- the readiness poller over the remote busy flag (ManipuladorCampos._wait_sap_ready),
- the two-strategy field interaction engine (ManipuladorCampos.preencher_campo_texto
  with its SendKeys fallback _preencher_via_sendkeys),
- the interaction statistics counters,
- the centralized checkpoint operator (SalvarFornecedor.executar),
- the modal sweep recovery (GerenciadorAnexos._limpar_estado_popups),
- the orchestrator pipeline (AutomacaoSAP.executar).

External effects (the remote SAP session, the Windows shell, the clock) are
modelled as explicit environments: each remote interaction that the Python code
performs is represented by one environment field recording whether that
interaction raised an exception and, for reads, what value it produced.
Polling loops consume a finite list of observed readings, the list standing for
the readings that fit inside the timeout window.
-/

/-! ## Python string helpers -/

/-- Whitespace characters stripped by the Python str.strip method. -/
def pyWhitespace (c : Char) : Bool :=
  c = ' ' || c = '\t' || c = '\n' || c = '\r' || c = Char.ofNat 11 || c = Char.ofNat 12

/-- Python str.strip: drop leading and trailing whitespace. -/
def pyStrip (s : List Char) : List Char :=
  ((s.dropWhile pyWhitespace).reverse.dropWhile pyWhitespace).reverse

/-- Whether the first list is an initial segment of the second. -/
def comecaCom : List Char → List Char → Bool
  | [], _ => true
  | _ :: _, [] => false
  | a :: as, b :: bs => a = b && comecaCom as bs

/-- Python substring containment test (the in operator on strings). -/
def contemTrecho (agulha : List Char) : List Char → Bool
  | [] => agulha.isEmpty
  | c :: cs => comecaCom agulha (c :: cs) || contemTrecho agulha cs

/-! ## Readiness poller

ManipuladorCampos._wait_sap_ready polls session.Busy every 0.02 s until the
flag reads false or the timeout elapses.  A reading of the flag may itself
raise (caught by the bare except and treated like busy).  The list argument
holds the readings observed at the successive polls that fit in the window:
some b is a successful read of value b, none is a read that raised. -/

def waitSapReady : List (Option Bool) → Bool
  | [] => false
  | some false :: _ => true
  | _ :: resto => waitSapReady resto

/-! ## Locator map and interaction statistics (ManipuladorCampos) -/

/-- Locator map loaded from campos_sap.json: a (categoria, campo) pair resolves
to the id_completo string, or to nothing when the entry (or its id_completo
key) is absent. -/
def CamposMap := String → String → Option String

/-- ManipuladorCamposSAP._carregar_campos_sap: the JSON file is parsed and the
resulting map is stored as is.  The only failure is a load/parse failure of
the file itself; entries are not validated. -/
def carregarCamposSap (conteudo : Except String CamposMap) : Except String CamposMap :=
  match conteudo with
  | .ok m => .ok m
  | .error e => .error ("Erro ao carregar campos_sap.json: " ++ e)

/-- ManipuladorCamposSAP._construir_id_por_name: looks the pair up in the
stored map; a KeyError becomes SAPElementNotFoundError. -/
def construirIdPorName (camposMap : CamposMap) (categoria campo : String) :
    Except String String :=
  match camposMap categoria campo with
  | some idCompleto => .ok idCompleto
  | none => .error ("Campo " ++ campo ++ " não encontrado em " ++ categoria ++
      " no campos_sap.json")

/-- Interaction statistics kept in ManipuladorCamposSAP._stats. -/
structure Stats where
  pythonSucesso : Nat
  sendkeysSucesso : Nat
  falha : Nat
  deriving DecidableEq

def somaStats (s : Stats) : Nat := s.pythonSucesso + s.sendkeysSucesso + s.falha

def incPython (s : Stats) : Stats := { s with pythonSucesso := s.pythonSucesso + 1 }

def incSendkeys (s : Stats) : Stats := { s with sendkeysSucesso := s.sendkeysSucesso + 1 }

def incFalha (s : Stats) : Stats := { s with falha := s.falha + 1 }

/-! ## SendKeys escaping (ManipuladorCampos._preencher_via_sendkeys, step 4) -/

def lbrace : Char := Char.ofNat 123

def rbrace : Char := Char.ofNat 125

/-- The reserved characters escaped before SendKeys injection, in the exact
order the Python loop walks them. -/
def caracteresReservados : List Char :=
  ['+', '^', '%', '~', '(', ')', Char.ofNat 123, Char.ofNat 125, '[', ']']

/-- Python str.replace with a single-character needle. -/
def substituirChar (alvo : Char) (novo : List Char) : List Char → List Char
  | [] => []
  | c :: cs =>
    if c = alvo then novo ++ substituirChar alvo novo cs
    else c :: substituirChar alvo novo cs

/-- The escaping loop of _preencher_via_sendkeys: for each reserved character
in order, every occurrence in the accumulated string is replaced by that
character wrapped in braces. -/
def escaparSendKeys (valor : List Char) : List Char :=
  caracteresReservados.foldl (fun acc ch => substituirChar ch [lbrace, ch, rbrace] acc) valor

/-- Modelled from the spec (the keystroke convention of claim C8, absent from
the source): decoding a keystroke string in which a brace-wrapped character
denotes that literal character, every other non-brace character denotes
itself, and anything else is invalid. -/
def decodificarTeclas : List Char → Option (List Char)
  | [] => some []
  | c :: cs =>
    if c = lbrace then
      match cs with
      | d :: e :: resto =>
        if e = rbrace then (decodificarTeclas resto).map (fun t => d :: t) else none
      | _ => none
    else if c = rbrace then none
    else (decodificarTeclas cs).map (fun t => c :: t)

/-! ## Field interaction engine (ManipuladorCampos.preencher_campo_texto) -/

/-- Direct-path verification: the written value is contained in the read-back
text, or the read-back text is non-blank. -/
def verificaDireta (valorLimpo texto : List Char) : Bool :=
  contemTrecho valorLimpo texto || !(pyStrip texto).isEmpty

/-- Fallback-path lenient re-verification: the first 20 characters of the
value occur in the read-back text, or the read-back length exceeds half the
value length. -/
def fallbackVerifica (valorLimpo texto : List Char) : Bool :=
  contemTrecho (valorLimpo.take 20) texto || 2 * texto.length > valorLimpo.length

/-- Environment of one preencher_campo_texto call: each field records the
outcome of one remote interaction of that call (none = the interaction raised
an exception). -/
structure AmbienteCampo where
  /-- findById(element_id).text = valor_limpo in the direct attempt. -/
  escritaDireta : Option Unit
  /-- read-back findById(element_id).text after the direct write. -/
  leituraDireta : Option (List Char)
  /-- findById of wnd 0 plus sendVKey 0 when pressionar_enter holds. -/
  enterDireto : Option Unit
  /-- findById(element_id) inside the fallback: some b gives the truthiness
  of the returned element, none is a raise. -/
  skEncontrado : Option Bool
  /-- shell.SendKeys of the escaped value. Focus setting and the select-all
  plus delete clearing that precede it swallow their own errors and are not
  modelled. -/
  skEnvio : Option Unit
  /-- elemento.text read during the fallback validation. -/
  skLeitura : Option (List Char)

/-- Remote interactions performed by one call, for trace statements. -/
inductive AcaoCampo
  | escritaDireta
  | leituraDireta
  | enterDireto
  | skBusca
  | skEnvio (textoEnviado : List Char)
  | skLeitura
  deriving DecidableEq

/-- ManipuladorCamposSAP._preencher_via_sendkeys: resolve the element, focus,
clear, escape and inject the value, then leniently re-verify.  The verification
outcome is only logged: once the element is resolved and the injection raised
no error the function returns True, even when the lenient re-verification
fails or the validation read itself raises. -/
def preencherViaSendkeys (env : AmbienteCampo) (valorLimpo : List Char) :
    Bool × List AcaoCampo :=
  match env.skEncontrado with
  | none => (false, [.skBusca])
  | some false => (false, [.skBusca])
  | some true =>
    match env.skEnvio with
    | none => (false, [.skBusca, .skEnvio (escaparSendKeys valorLimpo)])
    | some _ =>
      match env.skLeitura with
      | none => (true, [.skBusca, .skEnvio (escaparSendKeys valorLimpo), .skLeitura])
      | some texto =>
        let _ := fallbackVerifica valorLimpo texto
        (true, [.skBusca, .skEnvio (escaparSendKeys valorLimpo), .skLeitura])

/-- The fallback section of preencher_campo_texto: run the SendKeys attempt and
record sendkeys_sucesso or falha according to its boolean result.  The Enter
press that may follow a fallback success swallows every error. -/
def tentativaSendkeys (env : AmbienteCampo) (valorLimpo : List Char)
    (stats : Stats) (acoesAnteriores : List AcaoCampo) :
    Bool × Stats × List AcaoCampo :=
  match preencherViaSendkeys env valorLimpo with
  | (true, acoes) => (true, incSendkeys stats, acoesAnteriores ++ acoes)
  | (false, acoes) => (false, incFalha stats, acoesAnteriores ++ acoes)

/-- Blank-value guard of preencher_campo_texto: the value is None, empty, or
whitespace only. -/
def valorVazio : Option (List Char) → Bool
  | none => true
  | some v => v.isEmpty || (pyStrip v).isEmpty

/-- ManipuladorCamposSAP.preencher_campo_texto.  Returns the boolean result,
the statistics after the call, and the trace of remote interactions.  Blank
values are rejected before any interaction; an absent locator entry is caught
as SAPElementNotFoundError and recorded as falha; the direct attempt falls
back to SendKeys when the write, the read-back, the verification, or the
post-success Enter press fails — in the last case python_sucesso has already
been recorded and the fallback records a second outcome. -/
def preencherCampoTexto (env : AmbienteCampo) (camposMap : CamposMap)
    (categoria campo : String) (valor : Option (List Char))
    (pressionarEnter : Bool) (stats : Stats) : Bool × Stats × List AcaoCampo :=
  if valorVazio valor then (false, stats, [])
  else
    let valorLimpo := pyStrip (valor.getD [])
    match construirIdPorName camposMap categoria campo with
    | .error _ => (false, incFalha stats, [])
    | .ok _ =>
      match env.escritaDireta with
      | none => tentativaSendkeys env valorLimpo stats [.escritaDireta]
      | some _ =>
        match env.leituraDireta with
        | none => tentativaSendkeys env valorLimpo stats [.escritaDireta, .leituraDireta]
        | some textoAtual =>
          if verificaDireta valorLimpo textoAtual then
            if pressionarEnter then
              match env.enterDireto with
              | some _ =>
                (true, incPython stats, [.escritaDireta, .leituraDireta, .enterDireto])
              | none =>
                tentativaSendkeys env valorLimpo (incPython stats)
                  [.escritaDireta, .leituraDireta]
            else (true, incPython stats, [.escritaDireta, .leituraDireta])
          else tentativaSendkeys env valorLimpo stats [.escritaDireta, .leituraDireta]

/-! ## Checkpoint operator (SalvarFornecedor) -/

/-- SalvarFornecedor._existe_popup: polls findById of wnd 1 until it resolves
or the window elapses; each list element tells whether one poll resolved. -/
def existePopupSond : List Bool → Bool
  | [] => false
  | true :: _ => true
  | false :: resto => existePopupSond resto

/-- Buttons pressed by one SalvarFornecedor.executar run. -/
inductive AcaoSalvar
  | pressSalvar
  | pressConfirmarPopup
  | pressEditar
  deriving DecidableEq

/-- Environment of one SalvarFornecedor.executar run. -/
structure AmbienteSalvar where
  /-- findById of the save button btn 11 plus press. -/
  pressSalvar : Option Unit
  /-- busy readings of the 10 s wait after the save press (result only logged). -/
  espera1 : List (Option Bool)
  /-- polls of _existe_popup inside _confirmar_popup. -/
  sondagensPopup : List Bool
  /-- findById of the popup confirmation button btn 0, when a popup was found
  (none = it raised before the press; the error is caught inside
  _confirmar_popup). -/
  pressPopup : Option Unit
  /-- busy readings of the wait after the popup press (result only logged). -/
  espera2 : List (Option Bool)
  /-- busy readings of the unprotected completion loop, indexed by reading
  number; none = the unprotected session.Busy access raised. -/
  leiturasBusy : Nat → Option Bool
  /-- outer-loop iterations that fit in the 5 s completion window. -/
  orcamentoLoop : Nat
  /-- findById of wnd 0 in the validation step. -/
  validarWnd0 : Option Unit
  /-- busy readings of the wait before the edit press (result only logged). -/
  espera3 : List (Option Bool)
  /-- findById of the enable-edit button btn 6 plus press. -/
  pressEditar : Option Unit
  /-- busy readings of the wait after the edit press (result only logged). -/
  espera4 : List (Option Bool)

/-- SalvarFornecedor._confirmar_popup: when a popup is detected, press its
confirmation button and wait; errors are caught inside and yield False.
Returns the boolean result and whether the confirmation button was pressed. -/
def confirmarPopup (env : AmbienteSalvar) : Bool × Bool :=
  if existePopupSond env.sondagensPopup then
    match env.pressPopup with
    | none => (false, false)
    | some _ =>
      let _ := waitSapReady env.espera2
      (true, true)
  else (false, false)

/-- The unprotected completion loop of SalvarFornecedor.executar (the
five-second loop after popup handling): reads session.Busy without a
try/except; a non-busy reading triggers a second reading and two consecutive
non-busy readings break the loop; a raising read propagates to the outer
handler. -/
def garantirConclusao (leituras : Nat → Option Bool) : Nat → Nat → Except Unit Unit
  | 0, _ => .ok ()
  | orcamento + 1, i =>
    match leituras i with
    | none => .error ()
    | some true => garantirConclusao leituras orcamento (i + 1)
    | some false =>
      match leituras (i + 1) with
      | none => .error ()
      | some true => garantirConclusao leituras orcamento (i + 2)
      | some false => .ok ()

/-- SalvarFornecedor.executar: press save, wait, handle an eventual popup,
run the completion loop, validate that wnd 0 still resolves, then press the
enable-edit button — whose failure is caught and still yields True.  Returns
the boolean result and the trace of pressed buttons. -/
def salvarExecutar (env : AmbienteSalvar) : Bool × List AcaoSalvar :=
  match env.pressSalvar with
  | none => (false, [])
  | some _ =>
    let _ := waitSapReady env.espera1
    let confirmacao := confirmarPopup env
    let acoes0 := AcaoSalvar.pressSalvar ::
      (if confirmacao.2 then [AcaoSalvar.pressConfirmarPopup] else [])
    match garantirConclusao env.leiturasBusy env.orcamentoLoop 0 with
    | .error _ => (false, acoes0)
    | .ok _ =>
      match env.validarWnd0 with
      | none => (false, acoes0)
      | some _ =>
        let _ := waitSapReady env.espera3
        match env.pressEditar with
        | none => (true, acoes0)
        | some _ =>
          let _ := waitSapReady env.espera4
          (true, acoes0 ++ [AcaoSalvar.pressEditar])

/-! ## Modal sweep (GerenciadorAnexos._limpar_estado_popups) -/

/-- The inner loop of _limpar_estado_popups: attempt sendVKey 12 on each
window index of the list, swallowing any error the attempt raises; returns the
indices attempted, in order. -/
def varreduraEsc (enviarEsc : Nat → Except Unit Unit) : List Nat → List Nat
  | [] => []
  | i :: resto =>
    match enviarEsc i with
    | .ok _ => i :: varreduraEsc enviarEsc resto
    | .error _ => i :: varreduraEsc enviarEsc resto

/-- GerenciadorAnexosSAP._limpar_estado_popups: walk window indices 5 down to
1, attempting an escape on each; the inner except swallows per-index errors
and the outer except would swallow anything else, so the call never raises. -/
def limparEstadoPopups (enviarEsc : Nat → Except Unit Unit) : Except Unit (List Nat) :=
  .ok (varreduraEsc enviarEsc [5, 4, 3, 2, 1])

/-! ## Orchestrator (AutomacaoSAP.executar) -/

/-- The pipeline steps of AutomacaoSAP.executar, in program order: the six
stages with a centralized save checkpoint after each of the last three. -/
inductive Etapa
  | transacao
  | dadosGerais
  | dadosBancarios
  | empresas
  | salvar1
  | compras
  | salvar2
  | anexos
  | salvar3
  deriving DecidableEq

/-- Outcome of one sub-step call inside EntrarTransacao.executar: the call
returns a boolean, raises EntrarTransacaoError (re-raised unchanged by the
first except clause of executar), or raises some other exception (wrapped by
the second except clause). -/
inductive ResultadoSub
  | retorna (b : Bool)
  | levantaTransacao (msg : String)
  | levantaOutra (msg : String)

/-- Environment of one EntrarTransacao.executar run: the outcome of each of
its three sub-step calls.  In the source, abrir_transacao_xk01 and
selecionar_fornecedor_nacional only ever return True or raise
EntrarTransacaoError, so their retorna-False outcomes below are unreachable;
the embedding keeps them because executar checks those results. -/
structure AmbienteTransacao where
  abrir : ResultadoSub
  selecionar : ResultadoSub
  configurar : ResultadoSub

/-- EntrarTransacao.executar: a falsy result of one of the two critical
sub-steps raises EntrarTransacaoError with a step message, the result of
configurar_grupo_criacao is ignored (non-critical), and on success the method
returns True.  Its first except clause re-raises EntrarTransacaoError
unchanged; its second wraps any other exception.  The method therefore never
returns False: failure always surfaces as a raise. -/
def entrarTransacaoExecutar (envT : AmbienteTransacao) : Except String Bool :=
  match envT.abrir with
  | .levantaTransacao e => .error e
  | .levantaOutra e => .error ("Erro inesperado durante entrada na transação: " ++ e)
  | .retorna false => .error "Falha ao abrir transação XK01"
  | .retorna true =>
    match envT.selecionar with
    | .levantaTransacao e => .error e
    | .levantaOutra e => .error ("Erro inesperado durante entrada na transação: " ++ e)
    | .retorna false => .error "Falha ao selecionar fornecedor nacional"
    | .retorna true =>
      match envT.configurar with
      | .levantaTransacao e => .error e
      | .levantaOutra e => .error ("Erro inesperado durante entrada na transação: " ++ e)
      | .retorna _ => .ok true

/-- Environment of one orchestrator run.  The transaction stage carries its
own environment because EntrarTransacao.executar signals failure by raising;
every other stage module and the checkpoint catch their own exceptions and
report through their boolean result. -/
structure AmbienteAutomacao where
  /-- data loading, connection and module initialization raised nothing. -/
  cargaOk : Bool
  transacao : AmbienteTransacao
  dadosGeraisOk : Bool
  dadosBancariosOk : Bool
  empresasOk : Bool
  salvar1Ok : Bool
  comprasOk : Bool
  salvar2Ok : Bool
  anexosOk : Bool
  salvar3Ok : Bool

/-- Whether the orchestrator proceeds past the transaction stage: the stage
call returned — no raise — and its value is truthy. -/
def transacaoPassou (envT : AmbienteTransacao) : Bool :=
  match entrarTransacaoExecutar envT with
  | .ok r => r
  | .error _ => false

def etapaOk (env : AmbienteAutomacao) : Etapa → Bool
  | .transacao => transacaoPassou env.transacao
  | .dadosGerais => env.dadosGeraisOk
  | .dadosBancarios => env.dadosBancariosOk
  | .empresas => env.empresasOk
  | .salvar1 => env.salvar1Ok
  | .compras => env.comprasOk
  | .salvar2 => env.salvar2Ok
  | .anexos => env.anexosOk
  | .salvar3 => env.salvar3Ok

/-- The failure message the orchestrator returns when a step call reports
False.  The transacao entry is dead code: EntrarTransacao.executar never
returns False (it raises), so a transaction failure is actually reported
through the generic handler message instead. -/
def mensagemFalha : Etapa → String
  | .transacao => "Falha ao entrar na transação XK01"
  | .dadosGerais => "Falha ao preencher dados gerais"
  | .dadosBancarios => "Falha ao preencher dados bancários"
  | .empresas => "Falha ao preencher empresas"
  | .salvar1 => "Falha no SAVE 1/3 (Empresas)"
  | .compras => "Falha ao preencher compras"
  | .salvar2 => "Falha no SAVE 2/3 (Compras)"
  | .anexos => "Falha ao adicionar anexos"
  | .salvar3 => "Falha no SAVE 3/3 (Anexos)"

/-- The success message returned when the whole pipeline completes. -/
def mensagemSucesso : String :=
  "✅ AUTOMAÇÃO CONCLUÍDA!\n\nResumo:\n✅ Dados gerais preenchidos\n" ++
  "✅ Dados bancários preenchidos\n✅ Empresas (BR01, BR04, BR20) → SAVE 1/3 ✓\n" ++
  "✅ Compras (FLVN01) → SAVE 2/3 ✓\n✅ Anexos → SAVE 3/3 ✓\n\n" ++
  "💡 Cadastro salvo e pronto!\n🏗️ Arquitetura: Salvamentos centralizados"

/-- The message produced by the outer exception handler when loading,
connection or initialization raises. -/
def mensagemErroCarga : String := "Erro durante a automação"

/-- The message of the orchestrator generic exception handler, wrapping the
text of the exception that reached it. -/
def mensagemErroGenerico (e : String) : String :=
  "Erro durante a automação:\n\n" ++ e

/-- The fixed pipeline order. -/
def pipeline : List Etapa :=
  [.transacao, .dadosGerais, .dadosBancarios, .empresas, .salvar1,
   .compras, .salvar2, .anexos, .salvar3]

/-- AutomacaoSAP.executar: run the steps in the fixed order and abort at the
first failure; return also the trace of invoked steps.  The transaction stage
call may raise, in which case the generic except handler returns its wrapped
message; the falsy-return check on that stage is kept from the source even
though the stage never returns False. -/
def automacaoExecutar (env : AmbienteAutomacao) : (Bool × String) × List Etapa :=
  if !env.cargaOk then ((false, mensagemErroCarga), [])
  else match entrarTransacaoExecutar env.transacao with
  | .error e => ((false, mensagemErroGenerico e), [.transacao])
  | .ok r =>
  if !r then
    ((false, mensagemFalha .transacao), [.transacao])
  else if !env.dadosGeraisOk then
    ((false, mensagemFalha .dadosGerais), [.transacao, .dadosGerais])
  else if !env.dadosBancariosOk then
    ((false, mensagemFalha .dadosBancarios), [.transacao, .dadosGerais, .dadosBancarios])
  else if !env.empresasOk then
    ((false, mensagemFalha .empresas),
      [.transacao, .dadosGerais, .dadosBancarios, .empresas])
  else if !env.salvar1Ok then
    ((false, mensagemFalha .salvar1),
      [.transacao, .dadosGerais, .dadosBancarios, .empresas, .salvar1])
  else if !env.comprasOk then
    ((false, mensagemFalha .compras),
      [.transacao, .dadosGerais, .dadosBancarios, .empresas, .salvar1, .compras])
  else if !env.salvar2Ok then
    ((false, mensagemFalha .salvar2),
      [.transacao, .dadosGerais, .dadosBancarios, .empresas, .salvar1, .compras, .salvar2])
  else if !env.anexosOk then
    ((false, mensagemFalha .anexos),
      [.transacao, .dadosGerais, .dadosBancarios, .empresas, .salvar1, .compras,
       .salvar2, .anexos])
  else if !env.salvar3Ok then
    ((false, mensagemFalha .salvar3), pipeline)
  else ((true, mensagemSucesso), pipeline)

/-- The message the run actually returns when a given step is the first to
fail: the generic-handler wrapper around the raise text for the transaction
stage, the step's fixed message for every other step. -/
def mensagemPrimeiraFalha (env : AmbienteAutomacao) : Etapa → String
  | .transacao =>
    match entrarTransacaoExecutar env.transacao with
    | .error e => mensagemErroGenerico e
    | .ok _ => mensagemFalha .transacao
  | etapa => mensagemFalha etapa

/-! ## Call sequences and per-call classification (for the statistics claims) -/

/-- One preencher_campo_texto call: its environment and arguments. -/
structure Chamada where
  env : AmbienteCampo
  camposMap : CamposMap
  categoria : String
  campo : String
  valor : Option (List Char)
  pressionarEnter : Bool

/-- The statistics left by one call. -/
def passoChamada (stats : Stats) (c : Chamada) : Stats :=
  (preencherCampoTexto c.env c.camposMap c.categoria c.campo c.valor
    c.pressionarEnter stats).2.1

/-- The statistics left by a sequence of calls. -/
def executarChamadas (stats : Stats) (cs : List Chamada) : Stats :=
  cs.foldl passoChamada stats

/-- Whether a call passes the blank-value guard. -/
def passaGuarda (c : Chamada) : Bool := !valorVazio c.valor

/-- Whether the locator entry of a call resolves. -/
def localizado (c : Chamada) : Bool :=
  match construirIdPorName c.camposMap c.categoria c.campo with
  | .ok _ => true
  | .error _ => false

/-- Whether the direct attempt of a call writes, reads back and verifies. -/
def verificacaoDiretaOk (c : Chamada) : Bool :=
  c.env.escritaDireta.isSome &&
    (match c.env.leituraDireta with
     | some texto => verificaDireta (pyStrip (c.valor.getD [])) texto
     | none => false)

/-- Whether a call records two outcomes: the direct path records
python_sucesso, then the Enter press raises and the fallback records a second
outcome. -/
def duplaContagem (c : Chamada) : Bool :=
  passaGuarda c && localizado c && verificacaoDiretaOk c &&
    c.pressionarEnter && c.env.enterDireto.isNone

/-- Componentwise order on statistics. -/
def statsLe (a b : Stats) : Prop :=
  a.pythonSucesso ≤ b.pythonSucesso ∧ a.sendkeysSucesso ≤ b.sendkeysSucesso ∧
    a.falha ≤ b.falha

/-! ## Concrete environments used as witnesses and counterexamples -/

/-- An environment in which every remote interaction succeeds. -/
def envNeutro : AmbienteCampo := ⟨some (), some [], some (), some true, some (), some []⟩

/-- A locator map with no entries. -/
def mapaVazioC9 : CamposMap := fun _ _ => none

/-- A field-call environment whose direct write raises, whose fallback element
resolves and injection succeeds, but whose read-back text is empty (the
lenient re-verification fails). -/
def envC3 : AmbienteCampo := ⟨none, none, none, some true, some (), some []⟩

/-- A locator map resolving every pair. -/
def mapaTotal : CamposMap := fun _ _ => some "id"

/-- A call whose value is empty: rejected by the guard, no counter changes. -/
def chamadaVazia : Chamada := ⟨envNeutro, mapaTotal, "geral", "nome", some [], false⟩

/-- A checkpoint environment: save pressed, no popup, completion loop quiet,
root window resolvable, but the enable-edit press raises. -/
def envC5 : AmbienteSalvar :=
  ⟨some (), [], [false], none, [], fun _ => some false, 1, some (), [], none, []⟩

/-- A checkpoint environment: save pressed, popup polling always absent,
completion loop quiet, but the root window does not resolve. -/
def envC6 : AmbienteSalvar :=
  ⟨some (), [], [false, false], some (), [], fun _ => some false, 5, none, [], some (), []⟩

/-- A checkpoint environment for the amended happy path: save pressed, no
popup, completion loop quiet, root window resolvable, edit press fine. -/
def envC6ok : AmbienteSalvar :=
  ⟨some (), [], [false], some (), [], fun _ => some false, 3, some (), [], some (), []⟩

/-- A transaction-stage environment whose three sub-steps all return True. -/
def transacaoOkC1 : AmbienteTransacao := ⟨.retorna true, .retorna true, .retorna true⟩

/-- An orchestrator environment whose fourth step (empresas) fails. -/
def envC1 : AmbienteAutomacao :=
  ⟨true, transacaoOkC1, true, true, false, true, true, true, true, true⟩

/-- An orchestrator environment whose transaction stage raises
EntrarTransacaoError (abrir_transacao_xk01 times out waiting for SAP). -/
def envC1Falha : AmbienteAutomacao :=
  ⟨true, ⟨.levantaTransacao "SAP não ficou pronto após 10s ao abrir XK01",
    .retorna true, .retorna true⟩, true, true, true, true, true, true, true, true⟩

/-! ## Theorems -/

/-- C4: for every sequence of busy-flag readings, _wait_sap_ready returns a
boolean (reading errors are caught and treated like busy, so it never raises)
and it returns false exactly when no poll within the timeout window read the
busy flag as false. -/
theorem c4_wait_sap_ready_iff (leituras : List (Option Bool)) :
    waitSapReady leituras = false ↔ some false ∉ leituras := by
  induction leituras with
  | nil => simp [waitSapReady]
  | cons r resto ih =>
    match r with
    | none => simp [waitSapReady, ih]
    | some true => simp [waitSapReady, ih]
    | some false => simp [waitSapReady]

/-- C7: for every session state, the modal sweep attempts an escape on window
indices 5, 4, 3, 2, 1 in exactly that descending order, attempting each index
whether or not the window exists, swallowing every error an attempt raises,
and the operation as a whole never raises. -/
theorem c7_varredura_popups (enviarEsc : Nat → Except Unit Unit) :
    limparEstadoPopups enviarEsc = .ok [5, 4, 3, 2, 1] := by
  have h : ∀ resto : List Nat, varreduraEsc enviarEsc resto = resto := by
    intro resto
    induction resto with
    | nil => rfl
    | cons i r ih => cases hi : enviarEsc i <;> simp [varreduraEsc, hi, ih]
  simp [limparEstadoPopups, h]

/-- C8 (code bug): escaping the one-character value consisting of the plus
sign does not wrap it in exactly one brace pair — the later brace passes
re-escape the braces inserted by the earlier passes — and decoding the escaped
string under the keystroke convention fails instead of returning the original
value. -/
theorem c8_escape_nao_reversivel :
    escaparSendKeys ['+'] =
      [lbrace, lbrace, lbrace, rbrace, rbrace, '+', lbrace, rbrace, rbrace] ∧
    escaparSendKeys ['+'] ≠ [lbrace, '+', rbrace] ∧
    decodificarTeclas (escaparSendKeys ['+']) = none := by
  refine ⟨rfl, by decide, rfl⟩

/-- C10: a call whose value is None, empty, or whitespace-only returns False
before any remote interaction: no element resolution, no write, an empty
interaction trace, and statistics unchanged. -/
theorem c10_guarda_valor_vazio (env : AmbienteCampo) (camposMap : CamposMap)
    (categoria campo : String) (valor : Option (List Char))
    (pressionarEnter : Bool) (stats : Stats) (h : valorVazio valor = true) :
    preencherCampoTexto env camposMap categoria campo valor pressionarEnter stats =
      (false, stats, []) := by
  simp [preencherCampoTexto, h]

theorem c10_guarda_valor_vazio_witness :
    preencherCampoTexto envNeutro mapaTotal "geral" "nome" (some [' ', '\t'])
      false ⟨0, 0, 0⟩ = (false, ⟨0, 0, 0⟩, []) :=
  c10_guarda_valor_vazio envNeutro mapaTotal "geral" "nome" (some [' ', '\t'])
    false ⟨0, 0, 0⟩ (by decide)

/-- C9: engine construction stores the locator map without validating entries
— it succeeds for any map, including one with absent entries — and a call
using an absent entry is the point where the error surfaces: the lookup fails
as SAPElementNotFoundError, which the call catches, recording falha and
returning False instead of raising, with no remote interaction performed. -/
theorem c9_validacao_tardia (m : CamposMap) (env : AmbienteCampo)
    (categoria campo : String) (valor : Option (List Char))
    (pressionarEnter : Bool) (stats : Stats)
    (hausente : m categoria campo = none) (hvalor : valorVazio valor = false) :
    carregarCamposSap (.ok m) = .ok m ∧
    preencherCampoTexto env m categoria campo valor pressionarEnter stats =
      (false, incFalha stats, []) := by
  refine ⟨rfl, ?_⟩
  simp [preencherCampoTexto, hvalor, construirIdPorName, hausente]

theorem c9_validacao_tardia_witness :
    carregarCamposSap (.ok mapaVazioC9) = .ok mapaVazioC9 ∧
    preencherCampoTexto envNeutro mapaVazioC9 "empresa" "nome" (some ['a'])
      false ⟨0, 0, 0⟩ = (false, incFalha ⟨0, 0, 0⟩, []) :=
  c9_validacao_tardia mapaVazioC9 envNeutro "empresa" "nome" (some ['a'])
    false ⟨0, 0, 0⟩ rfl (by decide)

/-- C5: when the save press, the completion loop after popup handling, and the
root-window verification all succeed but the enable-edit press raises, the
checkpoint still returns True: enable-edit failure never makes the checkpoint
report failure. -/
theorem c5_editar_nao_fatal (env : AmbienteSalvar)
    (hs : env.pressSalvar = some ())
    (hg : garantirConclusao env.leiturasBusy env.orcamentoLoop 0 = .ok ())
    (hv : env.validarWnd0 = some ())
    (he : env.pressEditar = none) :
    (salvarExecutar env).1 = true := by
  simp [salvarExecutar, hs, hg, hv, he]

theorem c5_editar_nao_fatal_witness : (salvarExecutar envC5).1 = true :=
  c5_editar_nao_fatal envC5 rfl rfl rfl rfl

/-- C6 counterexample: a checkpoint run in which the save press succeeds and
the popup polling always reports absence, yet executar returns False (the
root window fails to resolve in the verification step), refuting the claim
that commit success plus absence of modals alone force a True return. -/
theorem c6_contraexemplo :
    envC6.pressSalvar = some () ∧
    existePopupSond envC6.sondagensPopup = false ∧
    salvarExecutar envC6 = (false, [AcaoSalvar.pressSalvar]) :=
  ⟨rfl, rfl, rfl⟩

/-- C6 amended: when the commit press succeeds, the popup polling always
reports absence, the unprotected completion loop finishes without raising, and
the root-window verification succeeds, the checkpoint returns True and the
popup confirmation button is never pressed. -/
theorem c6_caminho_feliz (env : AmbienteSalvar)
    (hs : env.pressSalvar = some ())
    (hp : existePopupSond env.sondagensPopup = false)
    (hg : garantirConclusao env.leiturasBusy env.orcamentoLoop 0 = .ok ())
    (hv : env.validarWnd0 = some ()) :
    (salvarExecutar env).1 = true ∧
    AcaoSalvar.pressConfirmarPopup ∉ (salvarExecutar env).2 := by
  have hc : confirmarPopup env = (false, false) := by
    simp [confirmarPopup, hp]
  cases he : env.pressEditar <;>
    simp [salvarExecutar, hs, hg, hv, hc, he]

theorem c6_caminho_feliz_witness :
    (salvarExecutar envC6ok).1 = true ∧
    AcaoSalvar.pressConfirmarPopup ∉ (salvarExecutar envC6ok).2 :=
  c6_caminho_feliz envC6ok rfl rfl rfl rfl

/-- C3 counterexample: a fallback call whose element resolves and whose
keystroke injection succeeds but whose read-back text is empty, so the lenient
re-verification fails — yet the call returns True and records
sendkeys_sucesso, refuting the claim that failure is recorded exactly when the
re-verification fails. -/
theorem c3_contraexemplo :
    fallbackVerifica (pyStrip ['a', 'b']) [] = false ∧
    (preencherCampoTexto envC3 mapaTotal "geral" "nome" (some ['a', 'b'])
      false ⟨0, 0, 0⟩).1 = true ∧
    (preencherCampoTexto envC3 mapaTotal "geral" "nome" (some ['a', 'b'])
      false ⟨0, 0, 0⟩).2.1 = ⟨0, 1, 0⟩ :=
  ⟨rfl, rfl, rfl⟩

/-- C3 amended: a call reaching the fallback path records fallbackSuccess
exactly when the element resolves truthy and the keystroke injection raises no
error — the lenient re-verification outcome is only logged and never affects
the result — and records failure exactly otherwise; the boolean result agrees
with the recorded outcome. -/
theorem c3_fallback_registro (env : AmbienteCampo) (valorLimpo : List Char)
    (stats : Stats) (acoes : List AcaoCampo) :
    ((tentativaSendkeys env valorLimpo stats acoes).1 = true ↔
      env.skEncontrado = some true ∧ env.skEnvio = some ()) ∧
    (tentativaSendkeys env valorLimpo stats acoes).2.1 =
      (if (tentativaSendkeys env valorLimpo stats acoes).1 then incSendkeys stats
       else incFalha stats) := by
  rcases env with ⟨ed, ld, ent, skF, skS, skL⟩
  rcases skF with _ | b
  · simp [tentativaSendkeys, preencherViaSendkeys]
  · cases b
    · simp [tentativaSendkeys, preencherViaSendkeys]
    · rcases skS with _ | u
      · simp [tentativaSendkeys, preencherViaSendkeys]
      · cases u
        rcases skL with _ | t <;> simp [tentativaSendkeys, preencherViaSendkeys]

theorem statsLe_refl (a : Stats) : statsLe a a :=
  ⟨le_refl _, le_refl _, le_refl _⟩

theorem statsLe_trans {a b c : Stats} (h1 : statsLe a b) (h2 : statsLe b c) :
    statsLe a c :=
  ⟨h1.1.trans h2.1, h1.2.1.trans h2.2.1, h1.2.2.trans h2.2.2⟩

theorem statsLe_incPython (a : Stats) : statsLe a (incPython a) := by
  refine ⟨?_, ?_, ?_⟩ <;> simp [incPython]

theorem statsLe_incSendkeys (a : Stats) : statsLe a (incSendkeys a) := by
  refine ⟨?_, ?_, ?_⟩ <;> simp [incSendkeys]

theorem statsLe_incFalha (a : Stats) : statsLe a (incFalha a) := by
  refine ⟨?_, ?_, ?_⟩ <;> simp [incFalha]

theorem somaStats_incPython (a : Stats) : somaStats (incPython a) = somaStats a + 1 := by
  simp [somaStats, incPython]; omega

theorem somaStats_incSendkeys (a : Stats) :
    somaStats (incSendkeys a) = somaStats a + 1 := by
  simp [somaStats, incSendkeys]; omega

theorem somaStats_incFalha (a : Stats) : somaStats (incFalha a) = somaStats a + 1 := by
  simp [somaStats, incFalha]; omega

theorem somaStats_tentativa (env : AmbienteCampo) (v : List Char) (stats : Stats)
    (acoes : List AcaoCampo) :
    somaStats (tentativaSendkeys env v stats acoes).2.1 = somaStats stats + 1 := by
  rcases h : preencherViaSendkeys env v with ⟨b, acs⟩
  cases b <;>
    simp [tentativaSendkeys, h, somaStats_incSendkeys, somaStats_incFalha]

theorem statsLe_tentativa (env : AmbienteCampo) (v : List Char) (stats : Stats)
    (acoes : List AcaoCampo) :
    statsLe stats (tentativaSendkeys env v stats acoes).2.1 := by
  rcases h : preencherViaSendkeys env v with ⟨b, acs⟩
  cases b <;>
    simp [tentativaSendkeys, h, statsLe_incSendkeys, statsLe_incFalha]

/-- Per-call characterization: one call never decreases any counter, and it
adds to the counter sum exactly one unit when it passes the blank-value guard
plus one more unit when it takes the double-recording path. -/
theorem passo_caracterizacao (stats : Stats) (c : Chamada) :
    statsLe stats (passoChamada stats c) ∧
    somaStats (passoChamada stats c) =
      somaStats stats + (if passaGuarda c then 1 else 0) +
        (if duplaContagem c then 1 else 0) := by
  rcases c with ⟨⟨ed, ld, ent, skF, skS, skL⟩, m, cat, cam, valor, pe⟩
  simp only [passoChamada, passaGuarda, duplaContagem, localizado, verificacaoDiretaOk]
  by_cases hv : valorVazio valor = true
  · simp [preencherCampoTexto, hv, statsLe_refl]
  · rw [Bool.not_eq_true] at hv
    cases hmc : m cat cam with
    | none =>
      simp [preencherCampoTexto, construirIdPorName, hv, hmc, statsLe_incFalha,
        somaStats_incFalha]
    | some idc =>
      cases ed with
      | none =>
        simp [preencherCampoTexto, construirIdPorName, hv, hmc,
          statsLe_tentativa, somaStats_tentativa]
      | some ued =>
        cases ld with
        | none =>
          simp [preencherCampoTexto, construirIdPorName, hv, hmc,
            statsLe_tentativa, somaStats_tentativa]
        | some texto =>
          by_cases hver : verificaDireta (pyStrip (valor.getD [])) texto = true
          · cases pe with
            | false =>
              simp [preencherCampoTexto, construirIdPorName, hv, hmc,
                hver, statsLe_incPython, somaStats_incPython]
            | true =>
              cases ent with
              | none =>
                refine ⟨?_, ?_⟩
                · simp only [preencherCampoTexto, construirIdPorName, hv, hmc, hver]
                  simp only [Bool.false_eq_true, if_false, if_true]
                  exact statsLe_trans (statsLe_incPython stats)
                    (statsLe_tentativa _ _ _ _)
                · simp [preencherCampoTexto, construirIdPorName, hv, hmc,
                    hver, somaStats_tentativa, somaStats_incPython]
              | some uent =>
                simp [preencherCampoTexto, construirIdPorName, hv, hmc,
                  hver, statsLe_incPython, somaStats_incPython]
          · rw [Bool.not_eq_true] at hver
            simp [preencherCampoTexto, construirIdPorName, hv, hmc,
              hver, statsLe_tentativa, somaStats_tentativa]

/-- C2 counterexample: a run consisting of one setField call with an empty
value leaves the counter sum at 0, not at the number of calls (1): the blank
guard rejects the call without recording any outcome. -/
theorem c2_contraexemplo :
    somaStats (executarChamadas ⟨0, 0, 0⟩ [chamadaVazia]) = 0 ∧
    [chamadaVazia].length = 1 :=
  ⟨rfl, rfl⟩

/-- C2 amended: within a run no counter ever decreases, and after any sequence
of setField calls the sum directSuccess + fallbackSuccess + failure equals the
number of calls that pass the blank-value guard plus the number of calls in
which the direct path recorded success but the subsequent Enter press raised
(such a call falls through to the fallback and records a second outcome);
blank-value calls record nothing. -/
theorem c2_contadores (stats : Stats) (cs : List Chamada) :
    statsLe stats (executarChamadas stats cs) ∧
    somaStats (executarChamadas stats cs) =
      somaStats stats + cs.countP (fun c => passaGuarda c) +
        cs.countP (fun c => duplaContagem c) := by
  induction cs generalizing stats with
  | nil => simpa [executarChamadas] using statsLe_refl stats
  | cons c resto ih =>
    have hpasso := passo_caracterizacao stats c
    have hresto := ih (passoChamada stats c)
    have hfold : executarChamadas stats (c :: resto) =
        executarChamadas (passoChamada stats c) resto := rfl
    constructor
    · exact hfold ▸ statsLe_trans hpasso.1 hresto.1
    · rw [hfold, hresto.2, hpasso.2]
      simp only [List.countP_cons]
      by_cases h1 : passaGuarda c <;> by_cases h2 : duplaContagem c <;>
        simp [h1, h2] <;> omega

/-- C1 counterexample: a run whose transaction stage fails.  The stage raises
EntrarTransacaoError (it never returns False), the run aborts after step one,
but the returned message is the generic-handler wrapper around the raise text
— the same format any unexpected exception produces — and not the orchestrator
step message for the transaction entry, which is dead code; so the run does
not return the step message the claim requires for the first pipeline step. -/
theorem c1_contraexemplo :
    entrarTransacaoExecutar envC1Falha.transacao =
      .error "SAP não ficou pronto após 10s ao abrir XK01" ∧
    (automacaoExecutar envC1Falha).1 =
      (false, mensagemErroGenerico "SAP não ficou pronto após 10s ao abrir XK01") ∧
    (automacaoExecutar envC1Falha).2 = [Etapa.transacao] ∧
    mensagemErroGenerico "SAP não ficou pronto após 10s ao abrir XK01" ≠
      mensagemFalha .transacao :=
  ⟨rfl, rfl, rfl, by decide⟩

/-- C1 amended: given that loading, connection and module initialization
succeed, the orchestrator executes the steps in the fixed order
transaction-entry, general-data, banking-data, company-role, checkpoint,
purchasing-role, checkpoint, attachments, checkpoint; the first failing step
makes the run return False with no later step invoked, the invoked steps being
exactly the successful ones before it plus the failing one.  The returned
message is that step's distinct orchestrator message for every step except
transaction-entry; the transaction stage signals failure by raising (it never
returns False, so the orchestrator message for it is dead code) and its
failure returns the generic-handler wrapper around the raise text.  When every
step succeeds the run returns True with the success message having invoked the
whole pipeline. -/
theorem c1_pipeline (env : AmbienteAutomacao) (h : env.cargaOk = true) :
    (∀ envT : AmbienteTransacao, entrarTransacaoExecutar envT ≠ .ok false) ∧
    (∀ a ∈ pipeline, ∀ b ∈ pipeline, mensagemFalha a = mensagemFalha b → a = b) ∧
    (match pipeline.find? (fun etapa => !etapaOk env etapa) with
     | none => automacaoExecutar env = ((true, mensagemSucesso), pipeline)
     | some etapa =>
       (automacaoExecutar env).1 = (false, mensagemPrimeiraFalha env etapa) ∧
       (automacaoExecutar env).2 = pipeline.takeWhile (etapaOk env) ++ [etapa]) := by
  refine ⟨?_, by decide, ?_⟩
  · intro envT
    rcases envT with ⟨ab, sel, conf⟩
    rcases ab with b1 | e1 | e1
    · cases b1
      · simp [entrarTransacaoExecutar]
      · rcases sel with b2 | e2 | e2
        · cases b2
          · simp [entrarTransacaoExecutar]
          · rcases conf with b3 | e3 | e3 <;> simp [entrarTransacaoExecutar]
        · simp [entrarTransacaoExecutar]
        · simp [entrarTransacaoExecutar]
    · simp [entrarTransacaoExecutar]
    · simp [entrarTransacaoExecutar]
  · obtain ⟨carga, trans, g, b, e, s1, co, s2, a, s3⟩ := env
    cases carga
    · exact Bool.noConfusion h
    rcases trans with ⟨ab, sel, conf⟩
    rcases ab with b1 | e1 | e1
    · cases b1
      · simp [automacaoExecutar, pipeline, etapaOk, transacaoPassou,
          entrarTransacaoExecutar, mensagemPrimeiraFalha, List.find?, List.takeWhile]
      · rcases sel with b2 | e2 | e2
        · cases b2
          · simp [automacaoExecutar, pipeline, etapaOk, transacaoPassou,
              entrarTransacaoExecutar, mensagemPrimeiraFalha, List.find?, List.takeWhile]
          · rcases conf with b3 | e3 | e3
            · cases g
              · simp [automacaoExecutar, pipeline, etapaOk, transacaoPassou,
                  entrarTransacaoExecutar, mensagemPrimeiraFalha, List.find?,
                  List.takeWhile]
              cases b
              · simp [automacaoExecutar, pipeline, etapaOk, transacaoPassou,
                  entrarTransacaoExecutar, mensagemPrimeiraFalha, List.find?,
                  List.takeWhile]
              cases e
              · simp [automacaoExecutar, pipeline, etapaOk, transacaoPassou,
                  entrarTransacaoExecutar, mensagemPrimeiraFalha, List.find?,
                  List.takeWhile]
              cases s1
              · simp [automacaoExecutar, pipeline, etapaOk, transacaoPassou,
                  entrarTransacaoExecutar, mensagemPrimeiraFalha, List.find?,
                  List.takeWhile]
              cases co
              · simp [automacaoExecutar, pipeline, etapaOk, transacaoPassou,
                  entrarTransacaoExecutar, mensagemPrimeiraFalha, List.find?,
                  List.takeWhile]
              cases s2
              · simp [automacaoExecutar, pipeline, etapaOk, transacaoPassou,
                  entrarTransacaoExecutar, mensagemPrimeiraFalha, List.find?,
                  List.takeWhile]
              cases a
              · simp [automacaoExecutar, pipeline, etapaOk, transacaoPassou,
                  entrarTransacaoExecutar, mensagemPrimeiraFalha, List.find?,
                  List.takeWhile]
              cases s3
              · simp [automacaoExecutar, pipeline, etapaOk, transacaoPassou,
                  entrarTransacaoExecutar, mensagemPrimeiraFalha, List.find?,
                  List.takeWhile]
              simp [automacaoExecutar, pipeline, etapaOk, transacaoPassou,
                entrarTransacaoExecutar, mensagemPrimeiraFalha, List.find?,
                List.takeWhile]
            · simp [automacaoExecutar, pipeline, etapaOk, transacaoPassou,
                entrarTransacaoExecutar, mensagemPrimeiraFalha, List.find?,
                List.takeWhile]
            · simp [automacaoExecutar, pipeline, etapaOk, transacaoPassou,
                entrarTransacaoExecutar, mensagemPrimeiraFalha, List.find?,
                List.takeWhile]
        · simp [automacaoExecutar, pipeline, etapaOk, transacaoPassou,
            entrarTransacaoExecutar, mensagemPrimeiraFalha, List.find?, List.takeWhile]
        · simp [automacaoExecutar, pipeline, etapaOk, transacaoPassou,
            entrarTransacaoExecutar, mensagemPrimeiraFalha, List.find?, List.takeWhile]
    · simp [automacaoExecutar, pipeline, etapaOk, transacaoPassou,
        entrarTransacaoExecutar, mensagemPrimeiraFalha, List.find?, List.takeWhile]
    · simp [automacaoExecutar, pipeline, etapaOk, transacaoPassou,
        entrarTransacaoExecutar, mensagemPrimeiraFalha, List.find?, List.takeWhile]

theorem c1_pipeline_witness :
    (automacaoExecutar envC1).1 = (false, mensagemPrimeiraFalha envC1 .empresas) ∧
    (automacaoExecutar envC1).2 = pipeline.takeWhile (etapaOk envC1) ++ [.empresas] :=
  (c1_pipeline envC1 rfl).2.2
